import Mathlib

/-!
A shallow embedding of the worldnews event-clustering and trajectory-prediction
pipeline (files `src/models/article.py`, `src/agents/event_clustering.py`,
`src/agents/rhetoric_analyzer.py`, `src/agents/prediction_agent.py`,
`src/utils/nlp_utils.py`), together with theorems settling the frozen claims
about it.

Modelling conventions:
* Python `float` arithmetic is modelled by exact rational arithmetic on an
  unnormalised fraction type `Q` (numerator/denominator, denominator kept
  positive by the smart constructors).  `numpy.mean` of an empty list is NaN
  in the code; it is modelled as `Option Q` with `none` playing the role of
  NaN (every comparison against NaN is false, which the embedding reproduces
  at each use site).
* `datetime` values are modelled as integer timestamps in seconds;
  `timedelta.days` is floor division by 86400.
* Python `sorted` / `list.sort` are stable; they are modelled by a structural
  stable insertion sort `py_stable_sort`.
* CPython materialises a `set` into an ordered sequence (`list(s)`, iteration
  of a set literal) in an order that is a fixed function of the process hash
  seed.  This materialisation is modelled by an explicit parameter
  `σ : List String → List String` applied to the canonical
  first-occurrence-deduplicated insertion sequence of the set.
* External primitives that are not part of the repository are parameters:
  `fit_predict` (sklearn DBSCAN), `md5hex` (hashlib), `sim` (the embedding
  cosine similarity, a float computation involving square roots).
-/

/-- Exact rational numbers as unnormalised fractions, modelling the Python
float computations of the pipeline; `den` is kept positive by construction. -/
structure Q where
  num : Int
  den : Int
deriving DecidableEq, Repr

def qmk (n d : Int) : Q := ⟨n, d⟩

def q0 : Q := ⟨0, 1⟩

def qofNat (n : Nat) : Q := ⟨n, 1⟩

def qofInt (i : Int) : Q := ⟨i, 1⟩

def qadd (a b : Q) : Q := ⟨a.num * b.den + b.num * a.den, a.den * b.den⟩

def qsub (a b : Q) : Q := ⟨a.num * b.den - b.num * a.den, a.den * b.den⟩

def qmul (a b : Q) : Q := ⟨a.num * b.num, a.den * b.den⟩

def qinv (a : Q) : Q :=
  if a.num > 0 then ⟨a.den, a.num⟩
  else if a.num < 0 then ⟨-a.den, -a.num⟩
  else ⟨0, 1⟩

def qdiv (a b : Q) : Q := qmul a (qinv b)

def qabs (a : Q) : Q := ⟨|a.num|, a.den⟩

/-- `a < b` for fractions with positive denominators (cross multiplication). -/
def qlt (a b : Q) : Prop := a.num * b.den < b.num * a.den

/-- `a ≤ b` for fractions with positive denominators (cross multiplication). -/
def qle (a b : Q) : Prop := a.num * b.den ≤ b.num * a.den

instance (a b : Q) : Decidable (qlt a b) := by unfold qlt; exact inferInstance

instance (a b : Q) : Decidable (qle a b) := by unfold qle; exact inferInstance

def qsum (xs : List Q) : Q := xs.foldl qadd q0

/-- `numpy.mean` over exact rationals; `none` models the NaN produced on an
empty list. -/
def py_mean (xs : List Q) : Option Q :=
  match xs with
  | [] => none
  | _ => some (qdiv (qsum xs) (qofNat xs.length))

/-- Maximal runs of characters satisfying `keep`, as strings: the common core
of `re.findall` tokenisation and `str.split()`. -/
def tokens_by (keep : Char → Bool) : List Char → List Char → List String
  | [], acc => if acc.isEmpty then [] else [String.mk acc.reverse]
  | c :: cs, acc =>
    if keep c then tokens_by keep cs (c :: acc)
    else if acc.isEmpty then tokens_by keep cs []
    else String.mk acc.reverse :: tokens_by keep cs []

/-- Python `\w` for ASCII text. -/
def is_word_char (c : Char) : Bool := c.isAlphanum || c = '_'

/-- `re.findall(r'\w+', s)`: the maximal word-character runs of `s`. -/
def py_words (s : String) : List String := tokens_by is_word_char s.data []

/-- `s.split()`: split on whitespace runs. -/
def py_split_ws (s : String) : List String :=
  tokens_by (fun c => !c.isWhitespace) s.data []

/-- `s.lower()` for ASCII text. -/
def py_lower (s : String) : String := String.mk (s.data.map Char.toLower)

def py_title_aux : List Char → Bool → List Char
  | [], _ => []
  | c :: cs, prevAlpha =>
    (if c.isAlpha then (if prevAlpha then c.toLower else c.toUpper) else c)
      :: py_title_aux cs c.isAlpha

/-- `s.title()` for ASCII text: uppercase every letter that follows a
non-letter, lowercase the rest. -/
def py_title (s : String) : String := String.mk (py_title_aux s.data false)

/-- `sep.join(parts)`. -/
def str_join (sep : String) : List String → String
  | [] => ""
  | [x] => x
  | x :: xs => x ++ sep ++ str_join sep xs

/-- Stable insertion of `a` after every earlier element `b` with
`keep b a = true`. -/
def insert_keep (keep : α → α → Bool) (a : α) : List α → List α
  | [] => [a]
  | b :: bs => if keep b a then b :: insert_keep keep a bs else a :: b :: bs

/-- Stable sort, modelling Python `sorted`: an earlier element `b` stays in
front of a later element `a` exactly when `keep b a = true`. -/
def py_stable_sort (keep : α → α → Bool) (xs : List α) : List α :=
  xs.foldl (fun acc a => insert_keep keep a acc) []

def dedup_first_aux [DecidableEq α] : List α → List α → List α
  | [], _ => []
  | x :: xs, seen =>
    if x ∈ seen then dedup_first_aux xs seen
    else x :: dedup_first_aux xs (x :: seen)

/-- Deduplication keeping first occurrences: the canonical insertion sequence
of a Python set built by successive additions. -/
def dedup_first [DecidableEq α] (xs : List α) : List α := dedup_first_aux xs []

/-- One `collections.Counter` / `defaultdict(int)` increment: insertion-ordered
association list of counts. -/
def counter_add [DecidableEq α] : List (α × Nat) → α → List (α × Nat)
  | [], x => [(x, 1)]
  | (k, v) :: rest, x =>
    if k = x then (k, v + 1) :: rest else (k, v) :: counter_add rest x

/-- `Counter(xs).items()` (equivalently a `defaultdict(int)` filled in order):
insertion-ordered keys with their occurrence counts. -/
def counter_items [DecidableEq α] (xs : List α) : List (α × Nat) :=
  xs.foldl counter_add []

/-- `Counter.most_common(n)`: stable descending sort by count, first `n`. -/
def most_common (xs : List (α × Nat)) (n : Nat) : List (α × Nat) :=
  (py_stable_sort (fun b a => a.2 ≤ b.2) xs).take n

/-! ## Data model (`src/models/article.py`) -/

/-- `Article` (pydantic model): unit of input. `published_at` is an integer
timestamp in seconds; `sentiment_score` and `embedding` are optional. -/
structure Article where
  id : String
  title : String
  subtitle : Option String := none
  description : Option String := none
  url : String
  source : String
  author : Option String := none
  published_at : Int
  content_snippet : Option String := none
  keywords : List String := []
  sentiment_score : Option Q := none
  embedding : Option (List Q) := none
deriving DecidableEq, Repr

/-- `ArticleCluster` (pydantic model). -/
structure ArticleCluster where
  id : String
  event_name : String
  articles : List Article
  centroid_embedding : Option (List Q) := none
  keywords : List String := []
  first_seen : Int
  last_updated : Int
  article_count : Nat
deriving DecidableEq, Repr

/-- `ArticleCluster.add_article`: append the article, set `article_count` to
the new list length, bump `last_updated` to the wall clock `now`. -/
def add_article (now : Int) (c : ArticleCluster) (a : Article) : ArticleCluster :=
  { c with
    articles := c.articles ++ [a]
    article_count := (c.articles ++ [a]).length
    last_updated := now }

/-- Python truthiness of an `Optional[List[float]]` field (`if a.embedding`):
true only for a present, non-empty vector. -/
def truthy_vec : Option (List Q) → Bool
  | some (_ :: _) => true
  | _ => false

/-! ## Text analysis primitives (`src/utils/nlp_utils.py`).  The sentence
transformer and cosine similarity act on floats and stay parameters; the
lexical primitives are embedded directly. -/

/-- Stop words of `NLPProcessor.extract_keywords`. -/
def stop_words : List String :=
  ["the", "a", "an", "and", "or", "but", "in", "on", "at", "to", "for",
   "of", "with", "by", "from", "as", "is", "was", "are", "were", "been",
   "be", "have", "has", "had", "do", "does", "did", "will", "would",
   "could", "should", "may", "might", "must", "can", "that", "this",
   "these", "those", "it", "its", "he", "she", "they", "them", "their"]

/-- `NLPProcessor.extract_keywords`: lowercase, strip punctuation, keep words
longer than 3 characters that are not stop words, return the `top_n` most
common (ties in first-occurrence order, as `Counter.most_common` does). -/
def extract_keywords (text : String) (top_n : Nat) : List String :=
  let ws := (py_words (py_lower text)).filter
    (fun w => w.length > 3 && !(stop_words.contains w))
  (most_common (counter_items ws) top_n).map (fun p => p.1)

/-- `NLPProcessor.extract_phrases`: n-gram phrases of the cleaned lowercase
text with their frequencies, 20 most common. -/
def extract_phrases (text : String) (n_gram : Nat) : List (String × Nat) :=
  let ws := py_words (py_lower text)
  let phrases := (List.range (ws.length + 1 - n_gram)).map
    (fun i => str_join " " ((ws.drop i).take n_gram))
  most_common (counter_items phrases) 20

/-- Positive lexicon of `analyze_sentiment_simple`. -/
def positive_words : List String :=
  ["peace", "agreement", "cooperation", "dialogue", "resolve", "support",
   "alliance", "positive", "success", "progress", "stability", "diplomatic"]

/-- Negative lexicon of `analyze_sentiment_simple`. -/
def negative_words : List String :=
  ["war", "conflict", "crisis", "threat", "attack", "violence", "tension",
   "dispute", "sanctions", "invasion", "hostility", "aggression", "warning",
   "menacing", "escalate", "condemn", "oppose"]

/-- `NLPProcessor.analyze_sentiment_simple`: `(pos - neg) / (pos + neg)` over
lexicon hits, `0.0` when no hits. -/
def analyze_sentiment_simple (text : String) : Q :=
  let ws := py_words (py_lower text)
  let pos := (ws.filter (fun w => positive_words.contains w)).length
  let neg := (ws.filter (fun w => negative_words.contains w)).length
  if pos + neg = 0 then q0
  else qdiv (qofInt ((pos : Int) - (neg : Int))) (qofNat (pos + neg))

/-- Matches of the five urgency regex patterns of
`NLPProcessor.detect_urgency_indicators`, pattern by pattern, each in
positional order; token-level reading of the word-boundary regexes. -/
def urgency_matches (text : String) : List String :=
  let ws := py_words (py_lower text)
  ws.filter (fun w =>
      ["imminent", "urgent", "immediate", "breaking", "crisis", "emergency"].contains w)
    ++ ws.filter (fun w =>
      (("escalat".isPrefixOf w) && w.length > 7) || (("intensif".isPrefixOf w) && w.length > 8))
    ++ ws.filter (fun w => ["deadline", "ultimatum"].contains w)
    ++ ws.filter (fun w => ["critical", "crucial", "vital"].contains w)
    ++ ws.filter (fun w => ["now", "today", "tonight", "must"].contains w)

/-- The set content of `detect_urgency_indicators` in canonical
first-occurrence order (independent of the set materialisation order). -/
def detect_urgency_core (text : String) : List String :=
  dedup_first (urgency_matches text)

/-- `NLPProcessor.detect_urgency_indicators`: `list(set(indicators))`, the
materialisation order given by the process parameter `σ`. -/
def detect_urgency_indicators (σ : List String → List String) (text : String) : List String :=
  σ (detect_urgency_core text)

/-- Country set literal of `extract_entities`, in source order. -/
def countries_lex : List String :=
  ["china", "russia", "usa", "america", "iran", "israel", "ukraine",
   "taiwan", "india", "pakistan", "korea", "japan", "germany", "france",
   "britain", "turkey", "syria", "iraq", "afghanistan", "greenland"]

/-- Leader set literal of `extract_entities`, in source order. -/
def leaders_lex : List String :=
  ["trump", "biden", "xi", "putin", "modi", "macron", "scholz",
   "erdogan", "netanyahu", "zelensky"]

/-- Organization set literal of `extract_entities`, in source order. -/
def organizations_lex : List String :=
  ["nato", "un", "eu", "brics", "who", "wto", "imf", "opec"]

/-- Result of `NLPProcessor.extract_entities`. -/
structure Entities where
  countries : List String
  leaders : List String
  organizations : List String
deriving DecidableEq, Repr

/-- `NLPProcessor.extract_entities`: which lexicon entries occur among the
words of the text; each comprehension iterates its set literal in the
process's materialisation order `σ`. -/
def extract_entities (σ : List String → List String) (text : String) : Entities :=
  let ws := py_words (py_lower text)
  { countries := (σ countries_lex).filter (fun c => ws.contains c)
    leaders := (σ leaders_lex).filter (fun l => ws.contains l)
    organizations := (σ organizations_lex).filter (fun o => ws.contains o) }

/-- Result of `NLPProcessor.compare_rhetoric`; `sentiment_change = none`
models the NaN arising from an empty text list. -/
structure CompareResult where
  sentiment_change : Option Q
  urgency_change : Int
  new_keywords : List String
  dropped_keywords : List String
  persistent_keywords : List String
deriving DecidableEq, Repr

/-- `NLPProcessor.compare_rhetoric`: 20-top-keyword set differences between
the joined old and new texts, lexical sentiment mean difference, total
urgency-match count difference. -/
def compare_rhetoric (σ : List String → List String)
    (texts_old texts_new : List String) : CompareResult :=
  let old_keywords := extract_keywords (str_join " " texts_old) 20
  let new_keywords := extract_keywords (str_join " " texts_new) 20
  let old_sentiment := py_mean (texts_old.map analyze_sentiment_simple)
  let new_sentiment := py_mean (texts_new.map analyze_sentiment_simple)
  let old_urgency : Nat := (texts_old.map (fun t => (detect_urgency_core t).length)).foldl (· + ·) 0
  let new_urgency : Nat := (texts_new.map (fun t => (detect_urgency_core t).length)).foldl (· + ·) 0
  { sentiment_change :=
      match new_sentiment, old_sentiment with
      | some n, some o => some (qsub n o)
      | _, _ => none
    urgency_change := (new_urgency : Int) - (old_urgency : Int)
    new_keywords := σ (new_keywords.filter (fun w => !(old_keywords.contains w)))
    dropped_keywords := σ (old_keywords.filter (fun w => !(new_keywords.contains w)))
    persistent_keywords := σ (old_keywords.filter (fun w => new_keywords.contains w)) }

/-! ## Clustering engine (`src/agents/event_clustering.py`) -/

/-- In-place update of the list element at index `i`, modelling mutation of
the Python object held at that position. -/
def modify_at (f : α → α) : List α → Nat → List α
  | [], _ => []
  | x :: xs, 0 => f x :: xs
  | x :: xs, n + 1 => x :: modify_at f xs n

def int_min_list : List Int → Int
  | [] => 0
  | x :: xs => xs.foldl min x

def int_max_list : List Int → Int
  | [] => 0
  | x :: xs => xs.foldl max x

/-- `np.mean(embeddings, axis=0)` for a non-empty list of equal-length
vectors. -/
def vec_mean (vs : List (List Q)) : List Q :=
  match vs with
  | [] => []
  | v :: rest =>
    (rest.foldl (fun acc w => List.zipWith qadd acc w) v).map
      (fun x => qdiv x (qofNat (rest.length + 1)))

/-- Lines 80–95 of `EventClusteringAgent._create_cluster`: concatenate the
member keyword lists, count occurrences in a `defaultdict`, keep the keys
whose count reaches `max(2, len(articles) // 3)` in dict (first-occurrence)
order, capped at 10. -/
def cluster_keywords (articles : List Article) : List String :=
  let all_keywords := (articles.map (fun a => a.keywords)).flatten
  let keyword_counts := counter_items all_keywords
  let min_occurrences := max 2 (articles.length / 3)
  ((keyword_counts.filter (fun p => p.2 ≥ min_occurrences)).map (fun p => p.1)).take 10

/-- Python `max(d, key=d.get)` over an insertion-ordered counter: the first
key of maximal count. -/
def dict_argmax (l : List (α × Nat)) : Option (α × Nat) :=
  match l with
  | [] => none
  | p :: rest => some (rest.foldl (fun best q => if q.2 > best.2 then q else best) p)

/-- `EventClusteringAgent._generate_event_name`. -/
def generate_event_name (σ : List String → List String)
    (articles : List Article) (keywords : List String) : String :=
  let entities := articles.map (fun a => extract_entities σ a.title)
  let country_counts := counter_items ((entities.map (fun e => e.countries)).join)
  let leader_counts := counter_items ((entities.map (fun e => e.leaders)).join)
  let parts0 : List String :=
    match dict_argmax leader_counts with
    | some p => [py_title p.1]
    | none => []
  let top_countries :=
    (py_stable_sort (fun b a => a.2 ≤ b.2) country_counts).take 2
  let parts1 := parts0 ++ top_countries.map (fun p => py_title p.1)
  let parts2 := parts1 ++ (match keywords with | [] => [] | kw :: _ => [kw])
  let name_parts :=
    if parts2.isEmpty then
      let all_titles := str_join " " (articles.map (fun a => a.title))
      let fallback_keywords := extract_keywords all_titles 3
      (fallback_keywords.take 2).map py_title
    else parts2
  let event_name :=
    if name_parts.isEmpty then "Geopolitical Event" else str_join " - " name_parts
  event_name.take 100

/-- `EventClusteringAgent._create_cluster`.  `md5hex` models
`hashlib.md5(...).hexdigest()`; the `cluster_id` argument is, as in the
source, unused (the id comes from the hash of the sorted member ids). -/
def create_cluster (md5hex : String → String) (σ : List String → List String)
    (cluster_id : Int) (articles : List Article) : ArticleCluster :=
  let article_ids := py_stable_sort (fun b a => !(decide (a < b))) (articles.map (fun a => a.id))
  let cluster_hash := (md5hex (str_join "" article_ids)).take 12
  let embeddings := (articles.filter (fun a => truthy_vec a.embedding)).map
    (fun a => a.embedding.getD [])
  let centroid : Option (List Q) :=
    if embeddings.isEmpty then none else some (vec_mean embeddings)
  let ckeywords := cluster_keywords articles
  let event_name := generate_event_name σ articles ckeywords
  let dates := articles.map (fun a => a.published_at)
  let _ := cluster_id
  { id := "cluster_" ++ cluster_hash
    event_name := event_name
    articles := articles
    centroid_embedding := centroid
    keywords := ckeywords
    first_seen := int_min_list dates
    last_updated := int_max_list dates
    article_count := articles.length }

/-- One `defaultdict(list)` append, grouping articles by DBSCAN label. -/
def group_add (groups : List (Int × List Article)) (a : Article) (label : Int) :
    List (Int × List Article) :=
  match groups with
  | [] => [(label, [a])]
  | (k, members) :: rest =>
    if k = label then (k, members ++ [a]) :: rest
    else (k, members) :: group_add rest a label

/-- `EventClusteringAgent.cluster_articles`.  `fit_predict` models
`DBSCAN(...).fit_predict` (with `eps` and `min_samples` baked in); an
`Except.error` models a raised exception, which the code catches, returning
an empty cluster list. -/
def cluster_articles (fit_predict : List (List Q) → Except String (List Int))
    (md5hex : String → String) (σ : List String → List String)
    (min_cluster_size : Nat) (articles : List Article) : List ArticleCluster :=
  if articles.isEmpty then []
  else
    let articles_with_embeddings := articles.filter (fun a => truthy_vec a.embedding)
    if articles_with_embeddings.length < min_cluster_size then []
    else
      match fit_predict (articles_with_embeddings.map (fun a => a.embedding.getD [])) with
      | Except.error _ => []
      | Except.ok labels =>
        let labelled := (articles_with_embeddings.zip labels).filter (fun p => p.2 ≠ -1)
        let groups := labelled.foldl (fun g p => group_add g p.1 p.2) []
        let clusters := groups.map (fun g => create_cluster md5hex σ g.1 g.2)
        py_stable_sort (fun b a => a.article_count ≤ b.article_count) clusters

/-- The best-matching-cluster scan of `EventClusteringAgent.merge_clusters`
(lines 183–196): running best similarity starts at `0`; a cluster with a
truthy centroid is picked when its similarity strictly exceeds the running
best and reaches the threshold.  Returns the index of the winner. -/
def find_best_cluster (sim : List Q → List Q → Q) (similarity_threshold : Q)
    (emb : List Q) (clusters : List ArticleCluster) : Option Nat :=
  (clusters.enum.foldl
    (fun (st : Option Nat × Q) p =>
      if truthy_vec p.2.centroid_embedding then
        let s := sim emb (p.2.centroid_embedding.getD [])
        if qlt st.2 s ∧ qle similarity_threshold s then (some p.1, s) else st
      else st)
    (none, q0)).1

/-- One iteration of the assignment loop of
`EventClusteringAgent.merge_clusters` (lines 179–203): an article without a
truthy embedding is skipped; otherwise it is added in place to its
best-matching cluster, or collected as unassigned. -/
def merge_step (sim : List Q → List Q → Q) (similarity_threshold : Q) (now : Int)
    (st : List ArticleCluster × List Article) (a : Article) :
    List ArticleCluster × List Article :=
  if truthy_vec a.embedding then
    match find_best_cluster sim similarity_threshold (a.embedding.getD []) st.1 with
    | some i => (modify_at (fun c => add_article now c a) st.1 i, st.2)
    | none => (st.1, st.2 ++ [a])
  else st

/-- `EventClusteringAgent.merge_clusters`: each new article with a truthy
embedding is added to its best-matching cluster, otherwise collected as
unassigned; unassigned articles are batch-clustered and appended. -/
def merge_clusters (fit_predict : List (List Q) → Except String (List Int))
    (md5hex : String → String) (σ : List String → List String)
    (min_cluster_size : Nat) (sim : List Q → List Q → Q)
    (similarity_threshold : Q) (now : Int)
    (old_clusters : List ArticleCluster) (new_articles : List Article) :
    List ArticleCluster :=
  let st := new_articles.foldl (merge_step sim similarity_threshold now) (old_clusters, [])
  if st.2.isEmpty then st.1
  else st.1 ++ cluster_articles fit_predict md5hex σ min_cluster_size st.2

/-! ## Rhetoric analysis model (`RhetoricAnalysis` in `src/models/article.py`).
The `Dict[str, Any]` payloads are modelled by structures whose optional fields
(`Option ...` with default `none`) represent dictionary keys that may be
absent; `getD` models `dict.get(key, default)`. -/

/-- One `{date, sentiment_score, title}` entry of `sentiment_trend`. -/
structure TrendPoint where
  date : Int
  sentiment_score : Q
  title : String
deriving DecidableEq, Repr

/-- One `{phrase, frequency, period}` entry of `key_phrases`. -/
structure PhraseEntry where
  phrase : String
  frequency : Nat
  period : String
deriving DecidableEq, Repr

/-- The `tone_shift` dictionary.  The under-2-articles branch of
`_analyze_tone_shift` omits the last four keys, hence their `Option` type
with `none` for "absent"; `shift_magnitude = none` and
`sentiment_change = some none` model NaN values. -/
structure ToneShift where
  initial_tone : String
  current_tone : String
  shift_magnitude : Option Q
  shift_direction : String
  sentiment_change : Option (Option Q) := none
  urgency_change : Option Int := none
  new_keywords : Option (List String) := none
  dropped_keywords : Option (List String) := none
deriving DecidableEq, Repr

/-- The `linguistic_features` dictionary. -/
structure LinguisticFeatures where
  avg_title_length : Q
  source_diversity : Nat
  time_span_days : Int
  article_frequency : Q
  sources : List String
deriving DecidableEq, Repr

/-- `RhetoricAnalysis` (pydantic model). -/
structure RhetoricAnalysis where
  cluster_id : String
  event_name : String
  analysis_date : Int
  time_period_days : Int
  sentiment_trend : List TrendPoint
  key_phrases : List PhraseEntry
  tone_shift : ToneShift
  urgency_indicators : List String
  actor_mentions : List (String × Nat)
  linguistic_features : LinguisticFeatures
  rhetoric_evolution : String
deriving DecidableEq, Repr

/-! ## Trajectory predictor (`src/agents/prediction_agent.py`) -/

/-- `xs[-n:]` for a Python list. -/
def py_last (n : Nat) (xs : List α) : List α := xs.drop (xs.length - n)

/-- The slope `np.polyfit(x, y, 1)[0]` of the least-squares line through
`(0, y₀), …, (n-1, yₙ₋₁)`, as an exact rational:
`(n·Σxy − Σx·Σy) / (n·Σx² − (Σx)²)`. -/
def polyfit_slope (ys : List Q) : Q :=
  let n := ys.length
  let xs := (List.range n).map (fun i => qofNat i)
  let sx := qsum xs
  let sy := qsum ys
  let sxy := qsum (List.zipWith qmul xs ys)
  let sxx := qsum (xs.map (fun x => qmul x x))
  qdiv (qsub (qmul (qofNat n) sxy) (qmul sx sy))
       (qsub (qmul (qofNat n) sxx) (qmul sx sx))

/-- The winner selection of `_determine_trajectory` (lines 128–137): the
key with the strictly highest score, `"stable"` when all scores are zero,
ties resolved by the dict iteration order
`escalating, de-escalating, stable`. -/
def pick_trajectory (escalating de_escalating stable : Nat) : String :=
  let max_score := max escalating (max de_escalating stable)
  if max_score = 0 then "stable"
  else if escalating = max_score then "escalating"
  else if de_escalating = max_score then "de-escalating"
  else if stable = max_score then "stable"
  else "stable"

/-- `PredictionAgent._determine_trajectory`.  The `cluster` argument is, as in
the source, unused by the scoring rules. -/
def determine_trajectory (cluster : ArticleCluster) (analysis : RhetoricAnalysis) : String :=
  let _ := cluster
  let s0 : Nat × Nat × Nat := (0, 0, 0)
  let s1 :=
    if analysis.sentiment_trend.isEmpty then s0
    else
      let recent_sentiments :=
        (py_last 5 analysis.sentiment_trend).map (fun p => p.sentiment_score)
      if recent_sentiments.length ≥ 2 then
        let trend := polyfit_slope recent_sentiments
        if qlt trend (qmk (-1) 20) then (s0.1 + 2, s0.2.1, s0.2.2)
        else if qlt (qmk 1 20) trend then (s0.1, s0.2.1 + 2, s0.2.2)
        else (s0.1, s0.2.1, s0.2.2 + 1)
      else s0
  let s2 :=
    if analysis.tone_shift.shift_direction = "deteriorating" then
      (s1.1 + 2, s1.2.1, s1.2.2)
    else if analysis.tone_shift.shift_direction = "improving" then
      (s1.1, s1.2.1 + 2, s1.2.2)
    else (s1.1, s1.2.1, s1.2.2 + 1)
  let s3 :=
    if analysis.urgency_indicators.length > 5 then (s2.1 + 1, s2.2.1, s2.2.2)
    else if analysis.urgency_indicators.length < 2 then (s2.1, s2.2.1 + 1, s2.2.2)
    else s2
  let urgency_change := analysis.tone_shift.urgency_change.getD 0
  let s4 :=
    if urgency_change > 2 then (s3.1 + 1, s3.2.1, s3.2.2)
    else if urgency_change < -2 then (s3.1, s3.2.1 + 1, s3.2.2)
    else s3
  let article_freq := analysis.linguistic_features.article_frequency
  let s5 :=
    if qlt (qofInt 2) article_freq then (s4.1 + 1, s4.2.1, s4.2.2)
    else s4
  pick_trajectory s5.1 s5.2.1 s5.2.2

/-- The `attention_metrics` dictionary of
`PredictionAgent._calculate_attention_metrics`. -/
structure AttentionMetrics where
  coverage_intensity : Q
  source_diversity : Nat
  coverage_trend : String
  total_articles : Nat
  sources : List String
deriving DecidableEq, Repr

/-- `PredictionAgent._calculate_attention_metrics`: coverage intensity over
the day span, source diversity, and the half-split coverage trend. -/
def calculate_attention_metrics (σ : List String → List String)
    (cluster : ArticleCluster) : AttentionMetrics :=
  let sorted_articles :=
    py_stable_sort (fun b a => decide (b.published_at ≤ a.published_at)) cluster.articles
  let intensity :=
    if sorted_articles.isEmpty then q0
    else
      let first := (sorted_articles.head?.map (fun a => a.published_at)).getD 0
      let last := (sorted_articles.getLast?.map (fun a => a.published_at)).getD 0
      let time_span := (last - first).fdiv 86400
      qdiv (qofNat cluster.article_count) (qofInt (max 1 time_span))
  let source_list := dedup_first (cluster.articles.map (fun a => a.source))
  let trend :=
    if sorted_articles.length ≥ 4 then
      let mid := sorted_articles.length / 2
      let early_count := mid
      let recent_count := sorted_articles.length - mid
      if qlt (qmul (qofNat early_count) (qmk 3 2)) (qofNat recent_count) then "increasing"
      else if qlt (qofNat recent_count) (qmul (qofNat early_count) (qmk 1 2)) then "decreasing"
      else "stable"
    else "insufficient_data"
  { coverage_intensity := intensity
    source_diversity := source_list.length
    coverage_trend := trend
    total_articles := cluster.article_count
    sources := σ source_list }

/-! ## Rhetoric analyzer (`src/agents/rhetoric_analyzer.py`) -/

/-- The text `f"{a.title} {a.description or ''}"` used throughout the
analyzer (`or ''` maps both a missing and an empty description to `""`). -/
def article_text (a : Article) : String := a.title ++ " " ++ a.description.getD ""

/-- `RhetoricAnalyzerAgent._analyze_sentiment_trend`: one `{date,
sentiment_score, title[:50]}` entry per article with a sentiment score, in
date order. -/
def analyze_sentiment_trend (articles : List Article) : List TrendPoint :=
  articles.filterMap (fun a =>
    a.sentiment_score.map (fun sc =>
      { date := a.published_at, sentiment_score := sc, title := a.title.take 50 }))

/-- `RhetoricAnalyzerAgent._analyze_key_phrases`: one period for fewer than 4
articles, otherwise an early and a recent half; 10 top bigrams per period. -/
def analyze_key_phrases (articles : List Article) : List PhraseEntry :=
  let periods :=
    if articles.length < 4 then [articles]
    else [articles.take (articles.length / 2), articles.drop (articles.length / 2)]
  (periods.enum.map (fun ip =>
    let period_text := str_join " " (ip.2.map article_text)
    ((extract_phrases period_text 2).take 10).map (fun q =>
      { phrase := q.1, frequency := q.2
        period := if ip.1 = 0 then "early" else "recent" }))).flatten

/-- The `sentiment_to_tone` helper of `_analyze_tone_shift`; `none` models a
NaN mean, for which every `<` comparison is false, landing in the final
`else` branch. -/
def sentiment_to_tone (score : Option Q) : String :=
  match score with
  | none => "highly positive"
  | some v =>
    if qlt v (qmk (-3) 10) then "highly negative"
    else if qlt v (qmk (-1) 10) then "negative"
    else if qlt v (qmk 1 10) then "neutral"
    else if qlt v (qmk 3 10) then "positive"
    else "highly positive"

/-- `RhetoricAnalyzerAgent._analyze_tone_shift`. -/
def analyze_tone_shift (σ : List String → List String)
    (articles : List Article) : ToneShift :=
  if articles.length < 2 then
    { initial_tone := "neutral", current_tone := "neutral"
      shift_magnitude := some (qofInt 0), shift_direction := "stable" }
  else
    let mid_point := max 1 (articles.length / 2)
    let early_articles := articles.take mid_point
    let recent_articles := articles.drop mid_point
    let comparison := compare_rhetoric σ
      (early_articles.map article_text) (recent_articles.map article_text)
    let early_sentiment := py_mean (early_articles.filterMap (fun a => a.sentiment_score))
    let recent_sentiment := py_mean (recent_articles.filterMap (fun a => a.sentiment_score))
    let shift_direction :=
      match comparison.sentiment_change with
      | some sc =>
        if qlt (qabs sc) (qmk 1 10) then "stable"
        else if qlt q0 sc then "improving"
        else "deteriorating"
      | none => "deteriorating"
    { initial_tone := sentiment_to_tone early_sentiment
      current_tone := sentiment_to_tone recent_sentiment
      shift_magnitude := comparison.sentiment_change.map qabs
      shift_direction := shift_direction
      sentiment_change := some comparison.sentiment_change
      urgency_change := some comparison.urgency_change
      new_keywords := some (comparison.new_keywords.take 5)
      dropped_keywords := some (comparison.dropped_keywords.take 5) }

/-- `RhetoricAnalyzerAgent._find_urgency_indicators`: union of the per-article
urgency indicator sets, materialised through `σ`. -/
def find_urgency_indicators (σ : List String → List String)
    (articles : List Article) : List String :=
  σ (dedup_first ((articles.map (fun a => detect_urgency_core (article_text a))).flatten))

/-- `RhetoricAnalyzerAgent._track_actor_mentions`: counts over the extracted
countries, leaders and organizations (category order as in the source),
sorted by descending count with ties in insertion order. -/
def track_actor_mentions (σ : List String → List String)
    (articles : List Article) : List (String × Nat) :=
  let es := articles.map (fun a => extract_entities σ (article_text a))
  let all_actors :=
    (es.map (fun e => e.countries)).flatten
      ++ (es.map (fun e => e.leaders)).flatten
      ++ (es.map (fun e => e.organizations)).flatten
  py_stable_sort (fun b a => a.2 ≤ b.2) (counter_items all_actors)

/-- `RhetoricAnalyzerAgent._analyze_linguistic_features`. -/
def analyze_linguistic_features (σ : List String → List String)
    (articles : List Article) : LinguisticFeatures :=
  let title_lengths := articles.map (fun a => (py_split_ws a.title).length)
  let source_core := dedup_first (articles.map (fun a => a.source))
  let dates := articles.map (fun a => a.published_at)
  let time_span :=
    if dates.isEmpty then 0
    else (int_max_list dates - int_min_list dates).fdiv 86400
  { avg_title_length :=
      match py_mean (title_lengths.map qofNat) with
      | some m => m
      | none => q0
    source_diversity := source_core.length
    time_span_days := time_span
    article_frequency := qdiv (qofNat articles.length) (qofInt (max 1 time_span))
    sources := σ source_core }

/-- The apostrophe character, as used in the narrative template strings. -/
def apos : String := String.singleton (Char.ofNat 39)

/-- `RhetoricAnalyzerAgent._generate_rhetoric_narrative`; the `key_phrases`
argument is, as in the source, unused. -/
def generate_rhetoric_narrative (sentiment_trend : List TrendPoint)
    (tone_shift : ToneShift) (key_phrases : List PhraseEntry)
    (urgency_indicators : List String) : String :=
  let _ := key_phrases
  let p1 :=
    if tone_shift.shift_direction = "stable" then
      "The rhetoric has remained relatively stable, maintaining a "
        ++ tone_shift.current_tone ++ " tone."
    else if tone_shift.shift_direction = "deteriorating" then
      "The rhetoric has shifted from " ++ tone_shift.initial_tone ++ " to "
        ++ tone_shift.current_tone ++ ", indicating a deterioration in tone."
    else
      "The rhetoric has shifted from " ++ tone_shift.initial_tone ++ " to "
        ++ tone_shift.current_tone ++ ", showing improvement."
  let parts1 := [p1]
  let parts2 := parts1 ++
    (if urgency_indicators.isEmpty then []
     else ["Urgency indicators such as " ++ apos
            ++ str_join ", " (urgency_indicators.take 3) ++ apos
            ++ " suggest heightened concern."])
  let parts3 := parts2 ++
    (match tone_shift.new_keywords with
     | some (k :: ks) =>
       ["New keywords emerging include: " ++ str_join ", " ((k :: ks).take 3) ++ "."]
     | _ => [])
  let parts4 := parts3 ++
    (if sentiment_trend.length > 1 then
      match py_mean ((py_last 5 sentiment_trend).map (fun p => p.sentiment_score)) with
      | some avg_recent =>
        if qlt avg_recent (qmk (-1) 5) then
          ["Recent coverage has been predominantly negative."]
        else if qlt (qmk 1 5) avg_recent then
          ["Recent coverage has been predominantly positive."]
        else []
      | none => []
     else [])
  str_join " " parts4

/-- `RhetoricAnalyzerAgent.analyze_cluster`: sort the member articles by date
and assemble the analysis; `time_period_days` is the agent constructor
parameter (default 30) and `now` the wall clock. -/
def analyze_cluster (σ : List String → List String) (time_period_days : Int)
    (now : Int) (cluster : ArticleCluster) : RhetoricAnalysis :=
  let sorted_articles :=
    py_stable_sort (fun b a => decide (b.published_at ≤ a.published_at)) cluster.articles
  let sentiment_trend := analyze_sentiment_trend sorted_articles
  let key_phrases := analyze_key_phrases sorted_articles
  let tone_shift := analyze_tone_shift σ sorted_articles
  let urgency_indicators := find_urgency_indicators σ sorted_articles
  { cluster_id := cluster.id
    event_name := cluster.event_name
    analysis_date := now
    time_period_days := time_period_days
    sentiment_trend := sentiment_trend
    key_phrases := key_phrases
    tone_shift := tone_shift
    urgency_indicators := urgency_indicators
    actor_mentions := track_actor_mentions σ sorted_articles
    linguistic_features := analyze_linguistic_features σ sorted_articles
    rhetoric_evolution :=
      generate_rhetoric_narrative sentiment_trend tone_shift key_phrases urgency_indicators }

/-! ## Helper lemmas about the modelling primitives -/

theorem mem_insert_keep {keep : α → α → Bool} {a x : α} {l : List α} :
    a ∈ insert_keep keep x l ↔ a = x ∨ a ∈ l := by
  induction l with
  | nil => simp [insert_keep]
  | cons b bs ih =>
    simp only [insert_keep]
    split
    · simp [ih]; tauto
    · simp [List.mem_cons]

theorem length_insert_keep {keep : α → α → Bool} (x : α) (l : List α) :
    (insert_keep keep x l).length = l.length + 1 := by
  induction l with
  | nil => rfl
  | cons b bs ih =>
    simp only [insert_keep]
    split
    · simp [ih]
    · simp

theorem mem_foldl_insert_keep {keep : α → α → Bool} (l : List α) :
    ∀ (acc : List α) (a : α),
      a ∈ l.foldl (fun acc x => insert_keep keep x acc) acc ↔ a ∈ acc ∨ a ∈ l := by
  induction l with
  | nil => simp
  | cons x xs ih =>
    intro acc a
    simp only [List.foldl_cons, ih, mem_insert_keep, List.mem_cons]
    tauto

theorem mem_py_stable_sort {keep : α → α → Bool} {a : α} {l : List α} :
    a ∈ py_stable_sort keep l ↔ a ∈ l := by
  simp [py_stable_sort, mem_foldl_insert_keep]

theorem length_foldl_insert_keep {keep : α → α → Bool} (l : List α) :
    ∀ (acc : List α),
      (l.foldl (fun acc x => insert_keep keep x acc) acc).length = acc.length + l.length := by
  induction l with
  | nil => simp
  | cons x xs ih =>
    intro acc
    simp only [List.foldl_cons, ih, length_insert_keep, List.length_cons]
    omega

theorem length_py_stable_sort {keep : α → α → Bool} (l : List α) :
    (py_stable_sort keep l).length = l.length := by
  simp [py_stable_sort, length_foldl_insert_keep]

theorem modify_at_get? (f : α → α) (l : List α) (i j : Nat) :
    (modify_at f l i).get? j = if i = j then (l.get? j).map f else l.get? j := by
  induction l generalizing i j with
  | nil => simp [modify_at]
  | cons x xs ih =>
    cases i with
    | zero =>
      cases j with
      | zero => simp [modify_at]
      | succ j => simp [modify_at]
    | succ i =>
      cases j with
      | zero => simp [modify_at]
      | succ j => simpa [modify_at] using ih i j

theorem length_modify_at (f : α → α) (l : List α) (i : Nat) :
    (modify_at f l i).length = l.length := by
  induction l generalizing i with
  | nil => rfl
  | cons x xs ih =>
    cases i with
    | zero => simp [modify_at]
    | succ i => simp [modify_at, ih]

theorem mem_modify_at {f : α → α} {l : List α} {i : Nat} {a : α} :
    a ∈ modify_at f l i → a ∈ l ∨ ∃ b ∈ l, a = f b := by
  induction l generalizing i with
  | nil => simp [modify_at]
  | cons x xs ih =>
    cases i with
    | zero =>
      intro h
      rcases List.mem_cons.mp h with h | h
      · exact Or.inr ⟨x, List.mem_cons_self .., h⟩
      · exact Or.inl (List.mem_cons_of_mem _ h)
    | succ i =>
      intro h
      rcases List.mem_cons.mp h with h | h
      · exact Or.inl (h ▸ List.mem_cons_self ..)
      · rcases ih h with h | ⟨b, hb, hab⟩
        · exact Or.inl (List.mem_cons_of_mem _ h)
        · exact Or.inr ⟨b, List.mem_cons_of_mem _ hb, hab⟩

theorem mem_dedup_first_aux [DecidableEq α] (l : List α) :
    ∀ (seen : List α) (a : α), a ∈ dedup_first_aux l seen ↔ a ∈ l ∧ a ∉ seen := by
  induction l with
  | nil => simp [dedup_first_aux]
  | cons x xs ih =>
    intro seen a
    simp only [dedup_first_aux]
    split
    · rename_i hx
      rw [ih]
      simp only [List.mem_cons]
      constructor
      · rintro ⟨h1, h2⟩; exact ⟨Or.inr h1, h2⟩
      · rintro ⟨h1 | h1, h2⟩
        · exact absurd (h1 ▸ hx) h2
        · exact ⟨h1, h2⟩
    · rename_i hx
      simp only [List.mem_cons, ih, List.mem_cons]
      constructor
      · rintro (rfl | ⟨h1, h2⟩)
        · exact ⟨Or.inl rfl, hx⟩
        · refine ⟨Or.inr h1, ?_⟩
          intro hc
          exact h2 (Or.inr hc)
      · rintro ⟨h1 | h1, h2⟩
        · exact Or.inl h1
        · by_cases hax : a = x
          · exact Or.inl hax
          · exact Or.inr ⟨h1, fun hc => by
              rcases hc with hc | hc
              · exact hax hc
              · exact h2 hc⟩

theorem mem_dedup_first [DecidableEq α] {a : α} {l : List α} :
    a ∈ dedup_first l ↔ a ∈ l := by
  simp [dedup_first, mem_dedup_first_aux]

theorem nodup_dedup_first_aux [DecidableEq α] (l : List α) :
    ∀ (seen : List α), (dedup_first_aux l seen).Nodup := by
  induction l with
  | nil => intro seen; simp [dedup_first_aux]
  | cons x xs ih =>
    intro seen
    simp only [dedup_first_aux]
    split
    · exact ih seen
    · refine List.nodup_cons.mpr ⟨?_, ih (x :: seen)⟩
      intro hx
      exact ((mem_dedup_first_aux xs (x :: seen) x).mp hx).2 (List.mem_cons_self ..)

theorem nodup_dedup_first [DecidableEq α] (l : List α) : (dedup_first l).Nodup :=
  nodup_dedup_first_aux l []

theorem dedup_first_aux_append [DecidableEq α] (pre : List α) (x : α) :
    ∀ (seen : List α),
      dedup_first_aux (pre ++ [x]) seen =
        if x ∈ seen ∨ x ∈ pre then dedup_first_aux pre seen
        else dedup_first_aux pre seen ++ [x] := by
  induction pre with
  | nil =>
    intro seen
    simp only [List.nil_append, dedup_first_aux]
    by_cases hx : x ∈ seen
    · simp [hx, dedup_first_aux]
    · simp [hx, dedup_first_aux]
  | cons y ys ih =>
    intro seen
    rw [List.cons_append]
    simp only [dedup_first_aux]
    by_cases hy : y ∈ seen
    · rw [if_pos hy, if_pos hy, ih seen]
      by_cases hx : x ∈ seen ∨ x ∈ ys
      · rw [if_pos hx, if_pos (by simp only [List.mem_cons]; tauto)]
      · rw [if_neg hx, if_neg ?_]
        simp only [List.mem_cons]
        push_neg at hx ⊢
        exact ⟨hx.1, fun h => hx.1 (h ▸ hy), hx.2⟩
    · rw [if_neg hy, if_neg hy, ih (y :: seen)]
      by_cases hx : x = y ∨ x ∈ seen ∨ x ∈ ys
      · rw [if_pos (by simp only [List.mem_cons]; tauto),
          if_pos (by simp only [List.mem_cons]; tauto)]
      · push_neg at hx
        rw [if_neg (by simp only [List.mem_cons]; tauto),
          if_neg (by simp only [List.mem_cons]; tauto), List.cons_append]

theorem dedup_first_append_singleton [DecidableEq α] (pre : List α) (x : α) :
    dedup_first (pre ++ [x]) =
      if x ∈ pre then dedup_first pre else dedup_first pre ++ [x] := by
  have h := dedup_first_aux_append pre x []
  simpa [dedup_first] using h

theorem counter_add_mem_nodup [DecidableEq α] (g : α → Nat) (x : α) :
    ∀ (ks : List α), x ∈ ks → ks.Nodup →
      counter_add (ks.map (fun k => (k, g k))) x =
        ks.map (fun k => (k, if k = x then g k + 1 else g k)) := by
  intro ks
  induction ks with
  | nil => intro h; simp at h
  | cons k ks ih =>
    intro hmem hnd
    simp only [List.map_cons, counter_add]
    by_cases hk : k = x
    · rw [if_pos hk, if_pos hk]
      have hx : x ∉ ks := hk ▸ (List.nodup_cons.mp hnd).1
      congr 1
      apply List.map_congr_left
      intro b hb
      rw [if_neg]
      rintro rfl
      exact hx hb
    · rw [if_neg hk, if_neg hk]
      have hmem' : x ∈ ks := by
        rcases List.mem_cons.mp hmem with h | h
        · exact absurd h.symm hk
        · exact h
      rw [ih hmem' (List.nodup_cons.mp hnd).2]

theorem counter_add_not_mem [DecidableEq α] (g : α → Nat) (x : α) :
    ∀ (ks : List α), x ∉ ks →
      counter_add (ks.map (fun k => (k, g k))) x =
        ks.map (fun k => (k, g k)) ++ [(x, 1)] := by
  intro ks
  induction ks with
  | nil => intro _; rfl
  | cons k ks ih =>
    intro hmem
    simp only [List.map_cons, counter_add]
    rw [if_neg (fun h => hmem (by simp [h])), List.cons_append,
      ih (fun h => hmem (List.mem_cons_of_mem _ h))]

theorem counter_add_step [DecidableEq α] (pre : List α) (x : α) :
    counter_add ((dedup_first pre).map (fun k => (k, pre.count k))) x =
      (dedup_first (pre ++ [x])).map (fun k => (k, (pre ++ [x]).count k)) := by
  by_cases hx : x ∈ pre
  · rw [counter_add_mem_nodup _ _ _ (mem_dedup_first.mpr hx) (nodup_dedup_first pre),
      dedup_first_append_singleton, if_pos hx]
    apply List.map_congr_left
    intro k hk
    rw [List.count_append]
    by_cases hkx : k = x
    · subst hkx
      simp
    · simp [List.count_singleton', hkx]
  · rw [counter_add_not_mem _ _ _ (fun h => hx (mem_dedup_first.mp h)),
      dedup_first_append_singleton, if_neg hx, List.map_append]
    congr 1
    · apply List.map_congr_left
      intro k hk
      rw [List.count_append]
      have hkx : k ≠ x := by
        rintro rfl
        exact hx (mem_dedup_first.mp hk)
      simp [List.count_singleton', hkx]
    · simp only [List.map_cons, List.map_nil, List.count_append]
      rw [List.count_eq_zero.mpr hx]
      simp

theorem counter_fold_spec [DecidableEq α] (xs : List α) :
    ∀ (pre : List α),
      xs.foldl counter_add ((dedup_first pre).map (fun k => (k, pre.count k))) =
        (dedup_first (pre ++ xs)).map (fun k => (k, (pre ++ xs).count k)) := by
  induction xs with
  | nil => intro pre; simp
  | cons x xs ih =>
    intro pre
    rw [List.foldl_cons, counter_add_step, ih (pre ++ [x])]
    simp

/-- `Counter(xs).items()` characterised: the keys are the distinct elements of
`xs` in first-occurrence order, each with its occurrence count. -/
theorem counter_items_eq [DecidableEq α] (xs : List α) :
    counter_items xs = (dedup_first xs).map (fun k => (k, xs.count k)) := by
  have h := counter_fold_spec xs []
  simpa [counter_items, dedup_first, dedup_first_aux] using h

/-! ## Claims -/

/-- C1: for every (cluster, analysis) pair in which
`analysis.tone_shift.shift_direction = "deteriorating"`,
`analysis.urgency_indicators` has exactly 6 entries and
`analysis.sentiment_trend` is empty, `_determine_trajectory` classifies the
trajectory as `"escalating"`: the escalating accumulator receives 2 points
from the tone-shift rule and 1 from the urgency-count rule and strictly
exceeds every competitor regardless of the remaining rules. -/
theorem C1_deteriorating_six_urgency_escalates
    (cluster : ArticleCluster) (analysis : RhetoricAnalysis)
    (h1 : analysis.tone_shift.shift_direction = "deteriorating")
    (h2 : analysis.urgency_indicators.length = 6)
    (h3 : analysis.sentiment_trend = []) :
    determine_trajectory cluster analysis = "escalating" := by
  unfold determine_trajectory
  rw [h1, h2, h3]
  simp only [List.isEmpty_nil, if_true]
  norm_num
  split_ifs <;> decide

def analysis_witness_C1 : RhetoricAnalysis :=
  { cluster_id := "c", event_name := "e", analysis_date := 0
    time_period_days := 30, sentiment_trend := [], key_phrases := []
    tone_shift :=
      { initial_tone := "neutral", current_tone := "negative"
        shift_magnitude := some q0, shift_direction := "deteriorating" }
    urgency_indicators := ["a", "b", "c", "d", "e", "f"]
    actor_mentions := []
    linguistic_features :=
      { avg_title_length := q0, source_diversity := 1, time_span_days := 0
        article_frequency := q0, sources := [] }
    rhetoric_evolution := "" }

def cluster_witness_C1 : ArticleCluster :=
  { id := "c", event_name := "e", articles := [], first_seen := 0
    last_updated := 0, article_count := 0 }

theorem C1_witness :
    analysis_witness_C1.tone_shift.shift_direction = "deteriorating" ∧
    analysis_witness_C1.urgency_indicators.length = 6 ∧
    analysis_witness_C1.sentiment_trend = [] ∧
    determine_trajectory cluster_witness_C1 analysis_witness_C1 = "escalating" :=
  ⟨rfl, rfl, rfl,
    C1_deteriorating_six_urgency_escalates cluster_witness_C1 analysis_witness_C1 rfl rfl rfl⟩

/-- C3: merging an empty list of new articles into any existing cluster set
returns that cluster set unchanged — same clusters, identical membership
lists, identical ids. -/
theorem C3_merge_empty_is_identity
    (fit_predict : List (List Q) → Except String (List Int))
    (md5hex : String → String) (σ : List String → List String)
    (min_cluster_size : Nat) (sim : List Q → List Q → Q)
    (similarity_threshold : Q) (now : Int)
    (old_clusters : List ArticleCluster) :
    merge_clusters fit_predict md5hex σ min_cluster_size sim similarity_threshold
      now old_clusters [] = old_clusters := rfl

/-- C4: whenever the density-clustering primitive raises on the embedding
matrix the engine hands it, `cluster_articles` returns the empty cluster
list — fail closed, no partial output. -/
theorem C4_primitive_failure_yields_empty
    (fit_predict : List (List Q) → Except String (List Int))
    (md5hex : String → String) (σ : List String → List String)
    (min_cluster_size : Nat) (articles : List Article) (msg : String)
    (herr : fit_predict ((articles.filter (fun a => truthy_vec a.embedding)).map
      (fun a => a.embedding.getD [])) = Except.error msg) :
    cluster_articles fit_predict md5hex σ min_cluster_size articles = [] := by
  unfold cluster_articles
  by_cases h1 : articles.isEmpty
  · rw [if_pos h1]
  · rw [if_neg h1]
    by_cases h2 :
      (articles.filter (fun a => truthy_vec a.embedding)).length < min_cluster_size
    · rw [if_pos h2]
    · rw [if_neg h2, herr]

def article_witness_C4 : Article :=
  { id := "a1", title := "t", url := "u", source := "s", published_at := 0
    embedding := some [q0] }

theorem C4_witness :
    (fun _ : List (List Q) => (Except.error "boom" : Except String (List Int)))
        (([article_witness_C4].filter (fun a => truthy_vec a.embedding)).map
          (fun a => a.embedding.getD [])) = Except.error "boom" ∧
    cluster_articles (fun _ => Except.error "boom") (fun s => s) (fun l => l) 2
      [article_witness_C4] = [] :=
  ⟨rfl, C4_primitive_failure_yields_empty (fun _ => Except.error "boom")
    (fun s => s) (fun l => l) 2 [article_witness_C4] "boom" rfl⟩

theorem filter_map_fst (g : α → Nat) (p : Nat → Bool) (l : List α) :
    ((l.map (fun k => (k, g k))).filter (fun q => p q.2)).map (fun q => q.1) =
      l.filter (fun k => p (g k)) := by
  induction l with
  | nil => rfl
  | cons k ks ih =>
    simp only [List.map_cons, List.filter_cons]
    by_cases hp : p (g k)
    · simp only [hp, if_true, List.map_cons, ih]
    · simp only [hp, Bool.false_eq_true, if_false, ih]

/-- The cluster keyword list as the words of claim C2 describe it: keywords
occurring in at least `max(2, article_count // 3)` member articles, capped at
10, ordered by descending occurrence frequency with ties broken by
first-seen order. -/
def claim_C2_keywords (articles : List Article) : List String :=
  let all_keywords := (articles.map (fun a => a.keywords)).flatten
  let min_occurrences := max 2 (articles.length / 3)
  let qualifying := (dedup_first all_keywords).filter
    (fun kw => (articles.filter (fun a => a.keywords.contains kw)).length ≥ min_occurrences)
  (py_stable_sort (fun b a => all_keywords.count a ≤ all_keywords.count b) qualifying).take 10

def articles_C2_order : List Article :=
  [{ id := "1", title := "t1", url := "u", source := "s", published_at := 0
     keywords := ["xa", "yb"] },
   { id := "2", title := "t2", url := "u", source := "s", published_at := 1
     keywords := ["yb", "xa"] },
   { id := "3", title := "t3", url := "u", source := "s", published_at := 2
     keywords := ["yb"] }]

def articles_C2_dup : List Article :=
  [{ id := "1", title := "t1", url := "u", source := "s", published_at := 0
     keywords := ["xa", "xa"] },
   { id := "2", title := "t2", url := "u", source := "s", published_at := 1
     keywords := ["yb"] },
   { id := "3", title := "t3", url := "u", source := "s", published_at := 2
     keywords := ["yb"] }]

/-- C2 counterexample.  First input: `xa` occurs twice and `yb` three times,
both in enough member articles, yet the code emits first-occurrence order
`["xa", "yb"]`, not the claimed descending-frequency order `["yb", "xa"]`.
Second input: `xa` occurs twice inside a single article's keyword list and
in only one member article, yet the code counts occurrences, not member
articles, and includes it. -/
theorem C2_counterexample :
    cluster_keywords articles_C2_order = ["xa", "yb"] ∧
    claim_C2_keywords articles_C2_order = ["yb", "xa"] ∧
    cluster_keywords articles_C2_order ≠ claim_C2_keywords articles_C2_order ∧
    cluster_keywords articles_C2_dup = ["xa", "yb"] ∧
    claim_C2_keywords articles_C2_dup = ["yb"] ∧
    cluster_keywords articles_C2_dup ≠ claim_C2_keywords articles_C2_dup := by
  decide

/-- C2 (amended): each cluster's keyword list contains exactly the keywords
occurring at least `max(2, article_count // 3)` times across the members'
concatenated keyword lists (occurrences, not distinct member articles),
capped at 10 entries, and ordered by first occurrence in the concatenated
keyword lists (dict insertion order), not by frequency. -/
theorem C2_amended_keywords (articles : List Article) :
    cluster_keywords articles =
      ((dedup_first ((articles.map (fun a => a.keywords)).flatten)).filter
        (fun kw => ((articles.map (fun a => a.keywords)).flatten).count kw ≥
          max 2 (articles.length / 3))).take 10 := by
  simp only [cluster_keywords]
  rw [counter_items_eq]
  rw [filter_map_fst (fun k => ((articles.map (fun a => a.keywords)).flatten).count k)
    (fun n => decide (n ≥ max 2 (articles.length / 3)))
    (dedup_first ((articles.map (fun a => a.keywords)).flatten))]

theorem cluster_articles_count_inv
    (fit_predict : List (List Q) → Except String (List Int))
    (md5hex : String → String) (σ : List String → List String)
    (min_cluster_size : Nat) (articles : List Article) :
    ∀ c ∈ cluster_articles fit_predict md5hex σ min_cluster_size articles,
      c.article_count = c.articles.length := by
  intro c hc
  simp only [cluster_articles] at hc
  split at hc
  · simp at hc
  · split at hc
    · simp at hc
    · split at hc
      · simp at hc
      · rw [mem_py_stable_sort] at hc
        rcases List.mem_map.mp hc with ⟨g, _, rfl⟩
        rfl

theorem merge_fold_count_inv (sim : List Q → List Q → Q)
    (similarity_threshold : Q) (now : Int) (new_articles : List Article) :
    ∀ (cs : List ArticleCluster) (un : List Article),
      (∀ c ∈ cs, c.article_count = c.articles.length) →
      ∀ c ∈ (new_articles.foldl (merge_step sim similarity_threshold now) (cs, un)).1,
        c.article_count = c.articles.length := by
  induction new_articles with
  | nil => intro cs un h; simpa using h
  | cons a rest ih =>
    intro cs un h
    rw [List.foldl_cons]
    rcases hst : merge_step sim similarity_threshold now (cs, un) a with ⟨cs', un'⟩
    have hstep : ∀ c ∈ cs', c.article_count = c.articles.length := by
      unfold merge_step at hst
      split at hst
      · split at hst
        · rcases Prod.mk.injEq .. ▸ hst with ⟨h1, _⟩
          intro c hc
          rw [← h1] at hc
          rcases mem_modify_at hc with hc | ⟨b, hb, rfl⟩
          · exact h c hc
          · rfl
        · rcases Prod.mk.injEq .. ▸ hst with ⟨h1, _⟩
          intro c hc
          rw [← h1] at hc
          exact h c hc
      · rcases Prod.mk.injEq .. ▸ hst with ⟨h1, _⟩
        intro c hc
        rw [← h1] at hc
        exact h c hc
    exact ih cs' un' hstep

/-- C5: `article_count == len(articles)` holds for every cluster produced by
`cluster_articles`, is (re)established by every `add_article` call and
preserved through `merge_clusters`, and consequently the total
`article_count` over any cluster list satisfying the invariant equals the
total of the membership list lengths. -/
theorem C5_article_count_invariant :
    (∀ (fit_predict : List (List Q) → Except String (List Int))
        (md5hex : String → String) (σ : List String → List String)
        (min_cluster_size : Nat) (articles : List Article),
      ∀ c ∈ cluster_articles fit_predict md5hex σ min_cluster_size articles,
        c.article_count = c.articles.length) ∧
    (∀ (now : Int) (c : ArticleCluster) (a : Article),
      (add_article now c a).article_count = (add_article now c a).articles.length) ∧
    (∀ (fit_predict : List (List Q) → Except String (List Int))
        (md5hex : String → String) (σ : List String → List String)
        (min_cluster_size : Nat) (sim : List Q → List Q → Q)
        (similarity_threshold : Q) (now : Int)
        (old_clusters : List ArticleCluster) (new_articles : List Article),
      (∀ c ∈ old_clusters, c.article_count = c.articles.length) →
      ∀ c ∈ merge_clusters fit_predict md5hex σ min_cluster_size sim
          similarity_threshold now old_clusters new_articles,
        c.article_count = c.articles.length) ∧
    (∀ clusters : List ArticleCluster,
      (∀ c ∈ clusters, c.article_count = c.articles.length) →
      (clusters.map (fun c => c.article_count)).sum =
        (clusters.map (fun c => c.articles.length)).sum) := by
  refine ⟨cluster_articles_count_inv, fun _ _ _ => rfl, ?_, ?_⟩
  · intro fp md5 σ mcs sim th now old new hold c hc
    simp only [merge_clusters] at hc
    split at hc
    · exact merge_fold_count_inv sim th now new old [] hold c hc
    · rcases List.mem_append.mp hc with hc | hc
      · exact merge_fold_count_inv sim th now new old [] hold c hc
      · exact cluster_articles_count_inv fp md5 σ mcs _ c hc
  · intro clusters h
    rw [List.map_congr_left h]

def cluster_witness_C5 : ArticleCluster :=
  { id := "k", event_name := "e"
    articles := [{ id := "a0", title := "t", url := "u", source := "s", published_at := 0 }]
    centroid_embedding := some [q0]
    first_seen := 0, last_updated := 0, article_count := 1 }

def article_witness_C5 : Article :=
  { id := "a1", title := "t", url := "u", source := "s", published_at := 5
    embedding := some [qofInt 1] }

theorem C5_witness :
    (∀ c ∈ [cluster_witness_C5], c.article_count = c.articles.length) ∧
    (∀ c ∈ merge_clusters (fun _ => Except.ok []) (fun s => s) (fun l => l) 2
        (fun _ _ => qofInt 1) q0 7 [cluster_witness_C5] [article_witness_C5],
      c.article_count = c.articles.length) :=
  ⟨by decide,
   C5_article_count_invariant.2.2.1 (fun _ => Except.ok []) (fun s => s) (fun l => l) 2
     (fun _ _ => qofInt 1) q0 7 [cluster_witness_C5] [article_witness_C5] (by decide)⟩

theorem merge_fold_frame (sim : List Q → List Q → Q) (similarity_threshold : Q)
    (now : Int) (new_articles : List Article) :
    ∀ (cs : List ArticleCluster) (un : List Article) (i : Nat) (c : ArticleCluster),
      cs.get? i = some c →
      ∃ c', ((new_articles.foldl (merge_step sim similarity_threshold now) (cs, un)).1).get? i
          = some c' ∧
        c'.id = c.id ∧ c'.event_name = c.event_name ∧ c'.keywords = c.keywords ∧
        c'.first_seen = c.first_seen ∧ c'.centroid_embedding = c.centroid_embedding := by
  induction new_articles with
  | nil =>
    intro cs un i c hc
    exact ⟨c, by simpa using hc, rfl, rfl, rfl, rfl, rfl⟩
  | cons a rest ih =>
    intro cs un i c hc
    rw [List.foldl_cons]
    rcases hst : merge_step sim similarity_threshold now (cs, un) a with ⟨cs', un'⟩
    have hmid : ∃ c₁, cs'.get? i = some c₁ ∧
        c₁.id = c.id ∧ c₁.event_name = c.event_name ∧ c₁.keywords = c.keywords ∧
        c₁.first_seen = c.first_seen ∧ c₁.centroid_embedding = c.centroid_embedding := by
      unfold merge_step at hst
      split at hst
      · split at hst
        · rename_i j hfb
          rcases Prod.mk.injEq .. ▸ hst with ⟨h1, _⟩
          rw [← h1, modify_at_get? _ _ j i]
          by_cases hj : j = i
          · rw [if_pos hj, hc]
            exact ⟨add_article now c a, rfl, rfl, rfl, rfl, rfl, rfl⟩
          · rw [if_neg hj]
            exact ⟨c, hc, rfl, rfl, rfl, rfl, rfl⟩
        · rcases Prod.mk.injEq .. ▸ hst with ⟨h1, _⟩
          exact ⟨c, h1 ▸ hc, rfl, rfl, rfl, rfl, rfl⟩
      · rcases Prod.mk.injEq .. ▸ hst with ⟨h1, _⟩
        exact ⟨c, h1 ▸ hc, rfl, rfl, rfl, rfl, rfl⟩
    rcases hmid with ⟨c₁, hc₁, e1, e2, e3, e4, e5⟩
    rcases ih cs' un' i c₁ hc₁ with ⟨c', hc', f1, f2, f3, f4, f5⟩
    exact ⟨c', hc', f1.trans e1, f2.trans e2, f3.trans e3, f4.trans e4, f5.trans e5⟩

/-- C6: `add_article` appends the article, sets `article_count` to the new
membership length and bumps `last_updated`, leaving `id`, `event_name`,
`keywords`, `first_seen` and in particular `centroid_embedding` unchanged;
and the incremental-merge assignment never touches a pre-existing cluster's
`centroid_embedding` (or its `id`, `event_name`, `keywords`, `first_seen`)
— the centroid is never recomputed. -/
theorem C6_add_article_frame :
    (∀ (now : Int) (c : ArticleCluster) (a : Article),
      (add_article now c a).articles = c.articles ++ [a] ∧
      (add_article now c a).article_count = (c.articles ++ [a]).length ∧
      (add_article now c a).last_updated = now ∧
      (add_article now c a).id = c.id ∧
      (add_article now c a).event_name = c.event_name ∧
      (add_article now c a).keywords = c.keywords ∧
      (add_article now c a).first_seen = c.first_seen ∧
      (add_article now c a).centroid_embedding = c.centroid_embedding) ∧
    (∀ (fit_predict : List (List Q) → Except String (List Int))
        (md5hex : String → String) (σ : List String → List String)
        (min_cluster_size : Nat) (sim : List Q → List Q → Q)
        (similarity_threshold : Q) (now : Int)
        (old_clusters : List ArticleCluster) (new_articles : List Article)
        (i : Nat) (c : ArticleCluster),
      old_clusters.get? i = some c →
      ∃ c', (merge_clusters fit_predict md5hex σ min_cluster_size sim
          similarity_threshold now old_clusters new_articles).get? i = some c' ∧
        c'.centroid_embedding = c.centroid_embedding ∧
        c'.id = c.id ∧ c'.event_name = c.event_name ∧
        c'.keywords = c.keywords ∧ c'.first_seen = c.first_seen) := by
  refine ⟨fun now c a => ⟨rfl, rfl, rfl, rfl, rfl, rfl, rfl, rfl⟩, ?_⟩
  intro fp md5 σ mcs sim th now old new i c hc
  rcases merge_fold_frame sim th now new old [] i c hc with ⟨c', hc', f1, f2, f3, f4, f5⟩
  simp only [merge_clusters]
  split
  · exact ⟨c', hc', f5, f1, f2, f3, f4⟩
  · refine ⟨c', ?_, f5, f1, f2, f3, f4⟩
    rw [List.get?_append]
    · exact hc'
    · exact List.get?_eq_some.mp hc' |>.1

def cluster_witness_C6 : ArticleCluster :=
  { id := "k6", event_name := "e6"
    articles := [{ id := "a0", title := "t", url := "u", source := "s", published_at := 0 }]
    centroid_embedding := some [qofInt 2]
    keywords := ["kw"], first_seen := 0, last_updated := 0, article_count := 1 }

def article_witness_C6 : Article :=
  { id := "a6", title := "t6", url := "u", source := "s", published_at := 9
    embedding := some [qofInt 1] }

theorem C6_witness :
    [cluster_witness_C6].get? 0 = some cluster_witness_C6 ∧
    ∃ c', (merge_clusters (fun _ => Except.ok []) (fun s => s) (fun l => l) 2
        (fun _ _ => qofInt 1) q0 11 [cluster_witness_C6] [article_witness_C6]).get? 0
          = some c' ∧
      c'.centroid_embedding = cluster_witness_C6.centroid_embedding ∧
      c'.id = cluster_witness_C6.id ∧ c'.event_name = cluster_witness_C6.event_name ∧
      c'.keywords = cluster_witness_C6.keywords ∧
      c'.first_seen = cluster_witness_C6.first_seen :=
  ⟨rfl, C6_add_article_frame.2 (fun _ => Except.ok []) (fun s => s) (fun l => l) 2
    (fun _ _ => qofInt 1) q0 11 [cluster_witness_C6] [article_witness_C6] 0
    cluster_witness_C6 rfl⟩

/-- C7: for clusters with at least 4 members the attention-metrics coverage
trend is `"increasing"` exactly when the second-half article count exceeds
1.5 times the first-half count, `"decreasing"` exactly when it is below 0.5
times the first-half count, and `"stable"` otherwise; with fewer than 4
members it is `"insufficient_data"`. -/
theorem C7_coverage_trend (σ : List String → List String) (c : ArticleCluster) :
    (4 ≤ c.articles.length →
      (((calculate_attention_metrics σ c).coverage_trend = "increasing" ↔
         qlt (qmul (qofNat (c.articles.length / 2)) (qmk 3 2))
             (qofNat (c.articles.length - c.articles.length / 2))) ∧
       ((calculate_attention_metrics σ c).coverage_trend = "decreasing" ↔
         qlt (qofNat (c.articles.length - c.articles.length / 2))
             (qmul (qofNat (c.articles.length / 2)) (qmk 1 2))) ∧
       ((calculate_attention_metrics σ c).coverage_trend = "stable" ↔
         (¬ qlt (qmul (qofNat (c.articles.length / 2)) (qmk 3 2))
              (qofNat (c.articles.length - c.articles.length / 2)) ∧
          ¬ qlt (qofNat (c.articles.length - c.articles.length / 2))
              (qmul (qofNat (c.articles.length / 2)) (qmk 1 2)))))) ∧
    (c.articles.length < 4 →
      (calculate_attention_metrics σ c).coverage_trend = "insufficient_data") := by
  have hlen : (py_stable_sort
      (fun b a => decide (b.published_at ≤ a.published_at)) c.articles).length
      = c.articles.length := length_py_stable_sort _
  constructor
  · intro h4
    have hexcl :
        qlt (qmul (qofNat (c.articles.length / 2)) (qmk 3 2))
            (qofNat (c.articles.length - c.articles.length / 2)) →
        ¬ qlt (qofNat (c.articles.length - c.articles.length / 2))
            (qmul (qofNat (c.articles.length / 2)) (qmk 1 2)) := by
      simp only [qlt, qmul, qofNat, qmk]
      omega
    simp only [calculate_attention_metrics, hlen]
    rw [if_pos h4]
    split_ifs with h1 h2
    · exact ⟨⟨fun _ => h1, fun _ => rfl⟩,
        ⟨fun h => absurd h (by decide), fun hc => absurd hc (hexcl h1)⟩,
        ⟨fun h => absurd h (by decide), fun hn => absurd h1 hn.1⟩⟩
    · exact ⟨⟨fun h => absurd h (by decide), fun hc => absurd hc h1⟩,
        ⟨fun _ => h2, fun _ => rfl⟩,
        ⟨fun h => absurd h (by decide), fun hn => absurd h2 hn.2⟩⟩
    · exact ⟨⟨fun h => absurd h (by decide), fun hc => absurd hc h1⟩,
        ⟨fun h => absurd h (by decide), fun hc => absurd hc h2⟩,
        ⟨fun _ => ⟨h1, h2⟩, fun _ => rfl⟩⟩
  · intro h4
    simp only [calculate_attention_metrics, hlen]
    rw [if_neg (by omega)]

def cluster_witness_C7 : ArticleCluster :=
  { id := "k7", event_name := "e7"
    articles :=
      [{ id := "a1", title := "t", url := "u", source := "s1", published_at := 0 },
       { id := "a2", title := "t", url := "u", source := "s2", published_at := 1 },
       { id := "a3", title := "t", url := "u", source := "s1", published_at := 2 },
       { id := "a4", title := "t", url := "u", source := "s3", published_at := 3 },
       { id := "a5", title := "t", url := "u", source := "s2", published_at := 4 }]
    first_seen := 0, last_updated := 4, article_count := 5 }

theorem C7_witness :
    4 ≤ cluster_witness_C7.articles.length ∧
    ((calculate_attention_metrics (fun l => l) cluster_witness_C7).coverage_trend
        = "increasing" ↔
      qlt (qmul (qofNat (cluster_witness_C7.articles.length / 2)) (qmk 3 2))
          (qofNat (cluster_witness_C7.articles.length -
            cluster_witness_C7.articles.length / 2))) :=
  ⟨by decide, ((C7_coverage_trend (fun l => l) cluster_witness_C7).1 (by decide)).1⟩

theorem snd_mem_enumFrom :
    ∀ (l : List α) (n : Nat) (p : Nat × α), p ∈ l.enumFrom n → p.2 ∈ l := by
  intro l
  induction l with
  | nil => intro n p hp; simp [List.enumFrom] at hp
  | cons x xs ih =>
    intro n p hp
    rw [List.enumFrom_cons] at hp
    rcases List.mem_cons.mp hp with h | h
    · simp [h]
    · exact List.mem_cons_of_mem _ (ih (n + 1) p h)

theorem isEmpty_map (f : α → β) (l : List α) : (l.map f).isEmpty = l.isEmpty := by
  cases l <;> rfl

theorem find_best_fold_none (sim : List Q → List Q → Q) (similarity_threshold : Q)
    (emb : List Q) :
    ∀ (ps : List (Nat × ArticleCluster)),
      (∀ p ∈ ps, truthy_vec p.2.centroid_embedding = true →
        qle (sim emb (p.2.centroid_embedding.getD [])) q0) →
      ps.foldl
        (fun (st : Option Nat × Q) p =>
          if truthy_vec p.2.centroid_embedding then
            let s := sim emb (p.2.centroid_embedding.getD [])
            if qlt st.2 s ∧ qle similarity_threshold s then (some p.1, s) else st
          else st)
        (none, q0) = (none, q0) := by
  intro ps
  induction ps with
  | nil => intro _; rfl
  | cons p ps ih =>
    intro h
    rw [List.foldl_cons]
    by_cases htr : truthy_vec p.2.centroid_embedding = true
    · have hle := h p (List.mem_cons_self ..) htr
      have hnlt : ¬ (qlt ((none : Option Nat), q0).2 (sim emb (p.2.centroid_embedding.getD [])) ∧
          qle similarity_threshold (sim emb (p.2.centroid_embedding.getD []))) := by
        rintro ⟨hlt, _⟩
        simp only [qlt, qle, q0] at hlt hle
        omega
      simp only [htr, if_true, hnlt, if_false]
      exact ih (fun q hq => h q (List.mem_cons_of_mem _ hq))
    · simp only [Bool.not_eq_true] at htr
      simp only [htr, Bool.false_eq_true, if_false]
      exact ih (fun q hq => h q (List.mem_cons_of_mem _ hq))

/-- C10: a new article whose similarity to every existing centroid is at most
0 is never assigned to an existing cluster — even for a zero or negative
`similarity_threshold` — because a candidate must strictly exceed a best
similarity initialised to 0; such an article falls through to the batch
clustering of the unassigned articles. -/
theorem C10_nonpositive_similarity_never_assigned
    (fit_predict : List (List Q) → Except String (List Int))
    (md5hex : String → String) (σ : List String → List String)
    (min_cluster_size : Nat) (sim : List Q → List Q → Q)
    (similarity_threshold : Q) (now : Int)
    (old_clusters : List ArticleCluster) (a : Article) (e : List Q)
    (he : a.embedding = some e) (hne : e ≠ [])
    (hsim : ∀ c ∈ old_clusters, truthy_vec c.centroid_embedding = true →
      qle (sim e (c.centroid_embedding.getD [])) q0) :
    find_best_cluster sim similarity_threshold e old_clusters = none ∧
    merge_clusters fit_predict md5hex σ min_cluster_size sim similarity_threshold
        now old_clusters [a] =
      old_clusters ++ cluster_articles fit_predict md5hex σ min_cluster_size [a] := by
  have hfold := find_best_fold_none sim similarity_threshold e old_clusters.enum
    (fun p hp => hsim p.2 (snd_mem_enumFrom _ 0 p hp))
  have hnone : find_best_cluster sim similarity_threshold e old_clusters = none := by
    unfold find_best_cluster
    rw [hfold]
  refine ⟨hnone, ?_⟩
  have htr : truthy_vec a.embedding = true := by
    rw [he]
    cases e with
    | nil => exact absurd rfl hne
    | cons x xs => rfl
  have hgetD : a.embedding.getD [] = e := by rw [he]; rfl
  simp only [merge_clusters, List.foldl_cons, List.foldl_nil, merge_step, htr, if_true,
    hgetD, hnone, List.nil_append, List.isEmpty_cons, Bool.false_eq_true, if_false]

def cluster_witness_C10 : ArticleCluster :=
  { id := "k10", event_name := "e10"
    articles := [{ id := "a0", title := "t", url := "u", source := "s", published_at := 0 }]
    centroid_embedding := some [qofInt 1]
    first_seen := 0, last_updated := 0, article_count := 1 }

def article_witness_C10 : Article :=
  { id := "a10", title := "t", url := "u", source := "s", published_at := 1
    embedding := some [qofInt 1] }

theorem C10_witness :
    article_witness_C10.embedding = some [qofInt 1] ∧
    ([qofInt 1] : List Q) ≠ [] ∧
    (∀ c ∈ [cluster_witness_C10], truthy_vec c.centroid_embedding = true →
      qle (qmk (-1) 1) q0) ∧
    (find_best_cluster (fun _ _ => qmk (-1) 1) (qmk (-1) 1) [qofInt 1]
        [cluster_witness_C10] = none ∧
      merge_clusters (fun _ => Except.ok []) (fun s => s) (fun l => l) 2
          (fun _ _ => qmk (-1) 1) (qmk (-1) 1) 3 [cluster_witness_C10]
          [article_witness_C10] =
        [cluster_witness_C10] ++ cluster_articles (fun _ => Except.ok [])
          (fun s => s) (fun l => l) 2 [article_witness_C10]) :=
  ⟨rfl, by decide, by decide,
    C10_nonpositive_similarity_never_assigned (fun _ => Except.ok []) (fun s => s)
      (fun l => l) 2 (fun _ _ => qmk (-1) 1) (qmk (-1) 1) 3 [cluster_witness_C10]
      article_witness_C10 [qofInt 1] rfl (by decide) (by decide)⟩

/-- The fallback event name as the words of claim C9 describe it: all top-3
frequency keywords of the concatenated titles, title-cased, joined by
`" - "`, with the fixed placeholder when empty, truncated to 100
characters. -/
def claim_C9_fallback_name (articles : List Article) : String :=
  let fallback_keywords :=
    extract_keywords (str_join " " (articles.map (fun a => a.title))) 3
  let name_parts := fallback_keywords.map py_title
  (if name_parts.isEmpty then "Geopolitical Event" else str_join " - " name_parts).take 100

def articles_C9 : List Article :=
  [{ id := "1", title := "storm floods village", url := "u", source := "s"
     published_at := 0 },
   { id := "2", title := "storm floods coast", url := "u", source := "s"
     published_at := 1 }]

set_option maxRecDepth 4000 in
/-- C9 counterexample: two articles with no extractable entities and no
cluster keywords yield three fallback keywords `storm, floods, village`,
but the code keeps only the first two of them (`fallback_keywords[:2]`),
producing `"Storm - Floods"` instead of the claimed three-keyword name. -/
theorem C9_counterexample :
    (∀ a ∈ articles_C9, (extract_entities (fun l => l) a.title).countries = [] ∧
      (extract_entities (fun l => l) a.title).leaders = []) ∧
    extract_keywords (str_join " " (articles_C9.map (fun a => a.title))) 3
      = ["storm", "floods", "village"] ∧
    generate_event_name (fun l => l) articles_C9 [] = "Storm - Floods" ∧
    claim_C9_fallback_name articles_C9 = "Storm - Floods - Village" ∧
    generate_event_name (fun l => l) articles_C9 [] ≠ claim_C9_fallback_name articles_C9 := by
  decide

/-- C9 (amended): for every cluster whose member articles yield no extracted
leader, no extracted country and no cluster keywords, the event name is
built from the first **two** of the top-3 frequency keywords extracted from
the concatenation of all member titles (the code slices
`fallback_keywords[:2]`), each title-cased, joined by `" - "`; if that too
is empty, the fixed placeholder `"Geopolitical Event"` is used, and the
name is truncated to 100 characters. -/
theorem C9_amended_fallback_name (σ : List String → List String)
    (articles : List Article)
    (hent : ∀ a ∈ articles, (extract_entities σ a.title).countries = [] ∧
      (extract_entities σ a.title).leaders = []) :
    generate_event_name σ articles [] =
      (if ((extract_keywords (str_join " " (articles.map (fun a => a.title))) 3).take 2).isEmpty
       then "Geopolitical Event"
       else str_join " - "
         (((extract_keywords (str_join " " (articles.map (fun a => a.title))) 3).take 2).map
           py_title)).take 100 := by
  have hcf : ((articles.map (fun a => extract_entities σ a.title)).map
      (fun e => e.countries)).flatten = [] := by
    rw [List.flatten_eq_nil_iff]
    intro l hl
    rcases List.mem_map.mp hl with ⟨ent, hent', rfl⟩
    rcases List.mem_map.mp hent' with ⟨a, ha, rfl⟩
    exact (hent a ha).1
  have hlf : ((articles.map (fun a => extract_entities σ a.title)).map
      (fun e => e.leaders)).flatten = [] := by
    rw [List.flatten_eq_nil_iff]
    intro l hl
    rcases List.mem_map.mp hl with ⟨ent, hent', rfl⟩
    rcases List.mem_map.mp hent' with ⟨a, ha, rfl⟩
    exact (hent a ha).2
  simp only [generate_event_name, hcf, hlf, counter_items, List.foldl_nil, dict_argmax,
    py_stable_sort, List.take_nil, List.map_nil, List.nil_append, List.append_nil,
    List.isEmpty_nil, if_true]
  rw [isEmpty_map]

set_option maxRecDepth 4000 in
theorem C9_witness :
    (∀ a ∈ articles_C9, (extract_entities (fun l => l) a.title).countries = [] ∧
      (extract_entities (fun l => l) a.title).leaders = []) ∧
    generate_event_name (fun l => l) articles_C9 [] =
      (if ((extract_keywords (str_join " " (articles_C9.map (fun a => a.title))) 3).take 2).isEmpty
       then "Geopolitical Event"
       else str_join " - "
         (((extract_keywords (str_join " " (articles_C9.map (fun a => a.title))) 3).take 2).map
           py_title)).take 100 :=
  ⟨by decide, C9_amended_fallback_name (fun l => l) articles_C9 (by decide)⟩

/-- C8 (amended): within one interpreter process (a fixed set-materialisation
order `σ`) and for a fixed analyzer configuration, `analyze_cluster` is
deterministic given the cluster's `id`, `event_name` and member articles:
any two runs agree on every field of the `RhetoricAnalysis` except
`analysis_date` — including the order of `urgency_indicators` and of the
derived keyword lists — whatever the clusters' other fields are. -/
theorem C8_amended_determinism (σ : List String → List String)
    (time_period_days : Int) (now₁ now₂ : Int) (c₁ c₂ : ArticleCluster)
    (hid : c₁.id = c₂.id) (hev : c₁.event_name = c₂.event_name)
    (hart : c₁.articles = c₂.articles) :
    (analyze_cluster σ time_period_days now₁ c₁).cluster_id =
      (analyze_cluster σ time_period_days now₂ c₂).cluster_id ∧
    (analyze_cluster σ time_period_days now₁ c₁).event_name =
      (analyze_cluster σ time_period_days now₂ c₂).event_name ∧
    (analyze_cluster σ time_period_days now₁ c₁).time_period_days =
      (analyze_cluster σ time_period_days now₂ c₂).time_period_days ∧
    (analyze_cluster σ time_period_days now₁ c₁).sentiment_trend =
      (analyze_cluster σ time_period_days now₂ c₂).sentiment_trend ∧
    (analyze_cluster σ time_period_days now₁ c₁).key_phrases =
      (analyze_cluster σ time_period_days now₂ c₂).key_phrases ∧
    (analyze_cluster σ time_period_days now₁ c₁).tone_shift =
      (analyze_cluster σ time_period_days now₂ c₂).tone_shift ∧
    (analyze_cluster σ time_period_days now₁ c₁).urgency_indicators =
      (analyze_cluster σ time_period_days now₂ c₂).urgency_indicators ∧
    (analyze_cluster σ time_period_days now₁ c₁).actor_mentions =
      (analyze_cluster σ time_period_days now₂ c₂).actor_mentions ∧
    (analyze_cluster σ time_period_days now₁ c₁).linguistic_features =
      (analyze_cluster σ time_period_days now₂ c₂).linguistic_features ∧
    (analyze_cluster σ time_period_days now₁ c₁).rhetoric_evolution =
      (analyze_cluster σ time_period_days now₂ c₂).rhetoric_evolution := by
  simp [analyze_cluster, hid, hev, hart]

def article_C8 : Article :=
  { id := "a8", title := "talks continue", url := "u", source := "s"
    published_at := 0, sentiment_score := some q0 }

def cluster_C8_a : ArticleCluster :=
  { id := "cluster-a", event_name := "E", articles := [article_C8]
    first_seen := 0, last_updated := 0, article_count := 1 }

def cluster_C8_b : ArticleCluster :=
  { id := "cluster-b", event_name := "E", articles := [article_C8]
    first_seen := 0, last_updated := 0, article_count := 1 }

/-- C8 counterexample: two clusters with identical member articles but
different ids are two runs "on clusters with identical member articles",
yet the resulting analyses differ in the `cluster_id` field (which is not
`analysis_date`), because `analyze_cluster` copies `cluster.id` into the
result. -/
theorem C8_counterexample :
    cluster_C8_a.articles = cluster_C8_b.articles ∧
    (analyze_cluster (fun l => l) 30 0 cluster_C8_a).cluster_id ≠
      (analyze_cluster (fun l => l) 30 0 cluster_C8_b).cluster_id := by
  decide

theorem C8_witness :
    (analyze_cluster (fun l => l) 30 0 cluster_C8_a).cluster_id =
      (analyze_cluster (fun l => l) 30 7 cluster_C8_a).cluster_id ∧
    (analyze_cluster (fun l => l) 30 0 cluster_C8_a).event_name =
      (analyze_cluster (fun l => l) 30 7 cluster_C8_a).event_name ∧
    (analyze_cluster (fun l => l) 30 0 cluster_C8_a).time_period_days =
      (analyze_cluster (fun l => l) 30 7 cluster_C8_a).time_period_days ∧
    (analyze_cluster (fun l => l) 30 0 cluster_C8_a).sentiment_trend =
      (analyze_cluster (fun l => l) 30 7 cluster_C8_a).sentiment_trend ∧
    (analyze_cluster (fun l => l) 30 0 cluster_C8_a).key_phrases =
      (analyze_cluster (fun l => l) 30 7 cluster_C8_a).key_phrases ∧
    (analyze_cluster (fun l => l) 30 0 cluster_C8_a).tone_shift =
      (analyze_cluster (fun l => l) 30 7 cluster_C8_a).tone_shift ∧
    (analyze_cluster (fun l => l) 30 0 cluster_C8_a).urgency_indicators =
      (analyze_cluster (fun l => l) 30 7 cluster_C8_a).urgency_indicators ∧
    (analyze_cluster (fun l => l) 30 0 cluster_C8_a).actor_mentions =
      (analyze_cluster (fun l => l) 30 7 cluster_C8_a).actor_mentions ∧
    (analyze_cluster (fun l => l) 30 0 cluster_C8_a).linguistic_features =
      (analyze_cluster (fun l => l) 30 7 cluster_C8_a).linguistic_features ∧
    (analyze_cluster (fun l => l) 30 0 cluster_C8_a).rhetoric_evolution =
      (analyze_cluster (fun l => l) 30 7 cluster_C8_a).rhetoric_evolution :=
  C8_amended_determinism (fun l => l) 30 0 7 cluster_C8_a cluster_C8_a rfl rfl rfl
